import Mathlib

/-!
Shallow embedding of the scoring engine in `src/lib/rating.ts` of the
swell-forecast repository.  JavaScript numbers are modelled as rationals
for the scorers (all their arithmetic is rational) and as reals for the
geometric-mean aggregator (which uses `Math.exp` / `Math.log`).  The
JavaScript remainder operator `%` truncates toward zero, which `jsMod`
reproduces; `Math.round x` is `⌊x + 1/2⌋`.
-/

/-- The five fixed axis identifiers of `ComponentId` in `rating.ts`. -/
inductive ComponentId
  | wind
  | dir
  | period
  | size
  | tide
deriving DecidableEq, Repr

/-- Model of `ComponentScore = \x7b id; label; score \x7d` from `rating.ts`. -/
structure ComponentScore where
  id : ComponentId
  label : String
  score : ℚ
deriving DecidableEq, Repr

/-- Values of a spot profile's `breakType` (`"beach" | "reef" | "point"`). -/
inductive BreakType
  | beach
  | reef
  | point
deriving DecidableEq, Repr

/-- The fields of `Spot` (from `lib/spots.ts`, not in the sources) that
`rating.ts` reads: coast bearing, break type, swell-direction window and the
optional tide / period shaping fields.  Identity fields (id, name, lat, lon)
are irrelevant to scoring and omitted. -/
structure Spot where
  coastBearing : ℚ
  breakType : BreakType
  swellDirMin : ℚ
  swellDirMax : ℚ
  minTide : Option ℚ
  idealTide : Option ℚ
  maxTide : Option ℚ
  minPeriod : Option ℚ
  idealPeriod : Option ℚ
deriving DecidableEq, Repr

/-- Model of `Weights = Partial<Record<ComponentId, number>>`: a partial mapping from
axis id to a weight; `none` models an absent key. -/
def Weights : Type := ComponentId → Option ℚ

/-- Model of `RatingInputs` from `rating.ts`. -/
structure RatingInputs where
  hs : ℚ
  tp : ℚ
  dp : ℚ
  wind : ℚ
  windDir : ℚ
  tide : Option ℚ
  spot : Spot

/-- Model of `clamp01 = (x) => Math.max(0, Math.min(1, x))`. -/
def clamp01 (x : ℚ) : ℚ := max 0 (min 1 x)

/-- Model of `lerp = (a, b, t) => a + (b - a) * t`. -/
def lerp (a b t : ℚ) : ℚ := a + (b - a) * t

/-- Truncation toward zero, the rounding used by the JavaScript `%`. -/
def ratTrunc (q : ℚ) : ℤ := if 0 ≤ q then ⌊q⌋ else ⌈q⌉

/-- JavaScript remainder: `a % b = a - b * trunc (a / b)` (sign of dividend). -/
def jsMod (a b : ℚ) : ℚ := a - b * (ratTrunc (a / b) : ℚ)

/-- The normalisation `((a % 360) + 360) % 360` used inside `angDiff`. -/
def norm360 (a : ℚ) : ℚ := jsMod (jsMod a 360 + 360) 360

/-- Model of `angDiff` from `rating.ts`:
`d = |((a%360)+360)%360 - ((b%360)+360)%360|; min d (360 - d)`. -/
def angDiff (a b : ℚ) : ℚ :=
  min |norm360 a - norm360 b| (360 - |norm360 a - norm360 b|)

/-- Model of `inDirWindow = (x, min, max) => min <= max ? x >= min && x <= max : x >= min || x <= max`. -/
def inDirWindow (x mn mx : ℚ) : Bool :=
  if mn ≤ mx then decide (mn ≤ x) && decide (x ≤ mx)
  else decide (mn ≤ x) || decide (x ≤ mx)

/-- Model of `windQuality` from `rating.ts` (lines 57–69). -/
def windQuality (windMs windDir coastBearing : ℚ) : ℚ :=
  let offshoreDir := jsMod (coastBearing + 180) 360
  let offAngle := angDiff windDir offshoreDir
  let angleScore := clamp01 ((offAngle - 30) / 150)
  let speedPenalty := 1 - clamp01 (windMs / 18)
  clamp01 (angleScore * speedPenalty)

/-- Model of `directionQuality` from `rating.ts` (lines 76–85). -/
def directionQuality (dp mn mx : ℚ) : ℚ :=
  let inside := inDirWindow dp mn mx
  let span := jsMod (mx - mn + 360) 360
  let half := span / 2
  let center := jsMod (mn + half) 360
  let diff := angDiff dp center
  let denom : ℚ := if inside then 60 else 120
  clamp01 (1 - diff / denom)

/-- Model of `periodQuality` from `rating.ts` (lines 91–94). -/
def periodQuality (tp minP idealP : ℚ) : ℚ :=
  let range := max (idealP - minP) 1
  clamp01 ((tp - minP) / range)

/-- Model of `sizeQuality` from `rating.ts` (lines 101–104). -/
def sizeQuality (hs : ℚ) (breakType : BreakType) : ℚ :=
  let cap : ℚ := if breakType = BreakType.beach then 2.5
    else if breakType = BreakType.point then 4 else 3
  clamp01 (hs / max cap 0.1)

/-- Model of `tideQuality` from `rating.ts` (lines 111–118); `tide == null` and the
null checks on the spot fields are the `Option` matches, and
`(maxTide - minTide) || 0.1` is the zero test on the width. -/
def tideQuality (tide : Option ℚ) (spot : Spot) : ℚ :=
  match tide, spot.minTide, spot.maxTide with
  | some t, some mn, some mx =>
    if t < mn ∨ t > mx then 0
    else
      let range := if mx - mn = 0 then 0.1 else mx - mn
      let ideal := (spot.idealTide).getD (lerp mn mx 0.5)
      let tnorm := (t - ideal) / (range / 2)
      clamp01 (1 - tnorm * tnorm)
  | _, _, _ => 1

/-- Model of `reasonsFromComponents` from `rating.ts` (lines 122–138): the successive
`out.push` calls become list concatenation in the same fixed order. -/
def reasonsFromComponents (cs : ComponentId → ℚ) : List String :=
  (if cs ComponentId.wind ≥ 0.6 then ["offshore or light winds"]
   else if cs ComponentId.wind ≤ 0.2 then ["onshore/strong winds"] else [])
  ++ (if cs ComponentId.dir ≥ 0.6 then ["favourable swell direction"]
      else ["suboptimal swell direction"])
  ++ (if cs ComponentId.period ≥ 0.6 then ["good period"]
      else if cs ComponentId.period ≤ 0.2 then ["short/weak period"] else [])
  ++ (if cs ComponentId.size ≥ 0.8 then ["solid size"]
      else if cs ComponentId.size ≤ 0.2 then ["small surf"] else [])
  ++ (if cs ComponentId.tide = 0 then ["tide out of window"] else [])

/-- Model of `componentScores` from `rating.ts` (lines 145–162). -/
def componentScores (x : RatingInputs) : List ComponentScore :=
  let minP := (x.spot.minPeriod).getD 7
  let idealP := (x.spot.idealPeriod).getD 13
  let wind := windQuality x.wind x.windDir x.spot.coastBearing
  let dir := directionQuality x.dp x.spot.swellDirMin x.spot.swellDirMax
  let period := periodQuality x.tp minP idealP
  let size := sizeQuality x.hs x.spot.breakType
  let tide := tideQuality x.tide x.spot
  [⟨ComponentId.wind, "Wind", clamp01 wind⟩,
   ⟨ComponentId.dir, "Direction", clamp01 dir⟩,
   ⟨ComponentId.period, "Period", clamp01 period⟩,
   ⟨ComponentId.size, "Size", clamp01 size⟩,
   ⟨ComponentId.tide, "Tide", clamp01 tide⟩]

/-- JavaScript `Math.round`: round half toward positive infinity. -/
noncomputable def jsRound (x : ℝ) : ℤ := ⌊x + 1 / 2⌋

/-- The non-null payload of `Aggregate` in `rating.ts`:
`{ method: "geometric"; score_0_10; weights }`; the `weights` record built by
`Object.fromEntries(ids.map(...))` is the association list of its entries. -/
structure AggregateData where
  method : String
  score_0_10 : ℝ
  weights : List (ComponentId × ℚ)

/-- Model of `aggregateScore` from `rating.ts` (lines 168–197).  There `weights = none`
models the missing argument; `sum || 1` is the zero test on the raw sum. -/
noncomputable def aggregateScore (components : List ComponentScore)
    (weights : Option Weights) : Option AggregateData :=
  match weights with
  | none => none
  | some wts =>
    let ids := components.map (fun c => c.id)
    let raw : List ℚ := ids.map (fun id => max 0 ((wts id).getD 0))
    let rawSum : ℚ := raw.foldl (fun a b => a + b) 0
    let sum : ℚ := if rawSum = 0 then 1 else rawSum
    let w : List ℚ := raw.map (fun v => v / sum)
    let eps : ℝ := 1e-6
    let geom : ℝ := Real.exp ((components.zip w).foldl
      (fun acc p => acc + (p.2 : ℝ) * Real.log (max (p.1.score : ℝ) eps)) 0)
    some ⟨"geometric", (jsRound (geom * 10 * 10) : ℝ) / 10, ids.zip w⟩

/-- Model of `RatedHour` from `rating.ts`. -/
structure RatedHour where
  components : List ComponentScore
  aggregate : Option AggregateData
  reasons : List String

/-- Model of `evaluateRating` from `rating.ts` (lines 203–218); the `reduce` building
the id → score dictionary becomes a fold of function updates (absent keys
read 0, though all five are always present). -/
noncomputable def evaluateRating (x : RatingInputs) (weights : Option Weights) :
    RatedHour :=
  let comps := componentScores x
  let dict : ComponentId → ℚ :=
    comps.foldl (fun m c => Function.update m c.id c.score) (fun _ => 0)
  ⟨comps, aggregateScore comps weights, reasonsFromComponents dict⟩

/-- The fixed weight profile hard-coded in `scoreForecast`. -/
def legacyWeights : Weights := fun id =>
  match id with
  | ComponentId.wind => some 0.35
  | ComponentId.dir => some 0.35
  | ComponentId.period => some 0.2
  | ComponentId.size => some 0.1
  | ComponentId.tide => some 0.6

/-- The flat `<axis>Score` record that `scoreForecast` returns. -/
structure CompObj where
  windScore : ℚ
  dirScore : ℚ
  periodScore : ℚ
  sizeScore : ℚ
  tideScore : ℚ
deriving DecidableEq, Repr

/-- One step of the `reduce` in `scoreForecast` setting `m[id + "Score"]`. -/
def setCompField (m : CompObj) (id : ComponentId) (v : ℚ) : CompObj :=
  match id with
  | ComponentId.wind => { m with windScore := v }
  | ComponentId.dir => { m with dirScore := v }
  | ComponentId.period => { m with periodScore := v }
  | ComponentId.size => { m with sizeScore := v }
  | ComponentId.tide => { m with tideScore := v }

/-- The shape returned by `scoreForecast`. -/
structure ScoreForecastResult where
  score : ℝ
  components : CompObj
  reasons : List String

/-- Model of `scoreForecast` from `rating.ts` (lines 226–251), including the
`aggregate?.score_0_10 ?? 0` fallback. -/
noncomputable def scoreForecast (x : RatingInputs) : ScoreForecastResult :=
  let r := evaluateRating x (some legacyWeights)
  let compObj := r.components.foldl
    (fun m c => setCompField m c.id c.score) ⟨0, 0, 0, 0, 0⟩
  ⟨((r.aggregate).map (fun a => a.score_0_10)).getD 0, compObj, r.reasons⟩

/-- The weighted-geometric-mean aggregate exactly as §4.4 of the spec words
it, on the five fixed axes: floor each weight at 0 (missing axes read 0),
sum with 1 substituted for a zero sum, normalize, take
`exp (Σ wᵢ · ln (max scoreᵢ 1e-6))`, and return `round (geom × 100) / 10`
with method `"geometric"` and the normalized weights. -/
noncomputable def aggregateSpec (sW sD sP sS sT : ℚ) (wts : Weights) :
    AggregateData :=
  let fw : ComponentId → ℚ := fun id => max 0 ((wts id).getD 0)
  let total0 : ℚ := fw ComponentId.wind + fw ComponentId.dir
    + fw ComponentId.period + fw ComponentId.size + fw ComponentId.tide
  let total : ℚ := if total0 = 0 then 1 else total0
  let nw : ComponentId → ℚ := fun id => fw id / total
  let geom : ℝ := Real.exp (
    (nw ComponentId.wind : ℝ) * Real.log (max (sW : ℝ) 1e-6)
    + (nw ComponentId.dir : ℝ) * Real.log (max (sD : ℝ) 1e-6)
    + (nw ComponentId.period : ℝ) * Real.log (max (sP : ℝ) 1e-6)
    + (nw ComponentId.size : ℝ) * Real.log (max (sS : ℝ) 1e-6)
    + (nw ComponentId.tide : ℝ) * Real.log (max (sT : ℝ) 1e-6))
  ⟨"geometric", (jsRound (geom * 100) : ℝ) / 10,
   [(ComponentId.wind, nw ComponentId.wind),
    (ComponentId.dir, nw ComponentId.dir),
    (ComponentId.period, nw ComponentId.period),
    (ComponentId.size, nw ComponentId.size),
    (ComponentId.tide, nw ComponentId.tide)]⟩

/-- The reason list exactly as §4.3 of the spec words it: independent
inclusive-threshold rules per axis, emitted in the fixed order wind, dir,
period, size, tide, the direction axis always emitting exactly one string. -/
def reasonsSpec (cs : ComponentId → ℚ) : List String :=
  (if cs ComponentId.wind ≥ 0.6 then ["offshore or light winds"] else [])
  ++ (if cs ComponentId.wind ≤ 0.2 then ["onshore/strong winds"] else [])
  ++ (if cs ComponentId.dir ≥ 0.6 then ["favourable swell direction"]
      else ["suboptimal swell direction"])
  ++ (if cs ComponentId.period ≥ 0.6 then ["good period"] else [])
  ++ (if cs ComponentId.period ≤ 0.2 then ["short/weak period"] else [])
  ++ (if cs ComponentId.size ≥ 0.8 then ["solid size"] else [])
  ++ (if cs ComponentId.size ≤ 0.2 then ["small surf"] else [])
  ++ (if cs ComponentId.tide = 0 then ["tide out of window"] else [])

/-- The score carried by the component with the given axis id (0 if the id
is absent, which never happens for `componentScores` output). -/
def componentScoreOf (x : RatingInputs) (id : ComponentId) : ℚ :=
  (((componentScores x).find? (fun c => decide (c.id = id))).map
    (fun c => c.score)).getD 0

/-- A concrete spot (the §8 round-trip example of the spec) used to
instantiate universally quantified theorems. -/
def sampleSpot : Spot :=
  ⟨270, BreakType.beach, 190, 240, none, none, none, some 8, some 13⟩

/-- A concrete observation record for the sample spot. -/
def sampleInputs : RatingInputs :=
  ⟨1.5, 13, 215, 3, 90, none, sampleSpot⟩

/-! ## Helper lemmas -/

theorem clamp01_nonneg (x : ℚ) : 0 ≤ clamp01 x := le_max_left 0 _

theorem clamp01_le_one (x : ℚ) : clamp01 x ≤ 1 :=
  max_le (by norm_num) (min_le_left 1 x)

/-- The double-remainder normalisation in `angDiff` computes the
mathematical residue `a - 360⌊a/360⌋ ∈ [0, 360)`. -/
theorem norm360_eq (a : ℚ) : norm360 a = a - 360 * ⌊a / 360⌋ := by
  by_cases ha : 0 ≤ a
  · have h1 : (0 : ℚ) ≤ a / 360 := by positivity
    have e1 : jsMod a 360 = a - 360 * ⌊a / 360⌋ := by
      simp [jsMod, ratTrunc, h1]
    have hfl : ((⌊a / 360⌋ : ℚ)) ≤ a / 360 := Int.floor_le _
    have hfu : a / 360 < (⌊a / 360⌋ : ℚ) + 1 := Int.lt_floor_add_one _
    have hm0 : 0 ≤ a - 360 * ⌊a / 360⌋ := by
      have := mul_le_mul_of_nonneg_left hfl (by norm_num : (0:ℚ) ≤ 360)
      rw [mul_div_cancel₀ a (by norm_num : (360:ℚ) ≠ 0)] at this
      linarith
    have hm360 : a - 360 * ⌊a / 360⌋ < 360 := by
      have := mul_lt_mul_of_pos_left hfu (by norm_num : (0:ℚ) < 360)
      rw [mul_div_cancel₀ a (by norm_num : (360:ℚ) ≠ 0)] at this
      linarith
    have h2 : (0 : ℚ) ≤ (a - 360 * ⌊a / 360⌋ + 360) / 360 := by positivity
    have hq : ⌊(a - 360 * ⌊a / 360⌋ + 360) / 360⌋ = 1 := by
      rw [Int.floor_eq_iff]
      constructor
      · rw [le_div_iff₀ (by norm_num : (0:ℚ) < 360)]
        push_cast
        linarith
      · rw [div_lt_iff₀ (by norm_num : (0:ℚ) < 360)]
        push_cast
        linarith
    rw [norm360, e1, jsMod, ratTrunc, if_pos h2, hq]
    push_cast
    ring
  · push_neg at ha
    have h1 : ¬ (0 : ℚ) ≤ a / 360 := by
      rw [not_le]
      exact div_neg_of_neg_of_pos ha (by norm_num)
    have e1 : jsMod a 360 = a - 360 * ⌈a / 360⌉ := by
      simp [jsMod, ratTrunc, h1]
    have hcu : a / 360 ≤ ((⌈a / 360⌉ : ℚ)) := Int.le_ceil _
    have hm0 : a - 360 * ⌈a / 360⌉ ≤ 0 := by
      have := mul_le_mul_of_nonneg_left hcu (by norm_num : (0:ℚ) ≤ 360)
      rw [mul_div_cancel₀ a (by norm_num : (360:ℚ) ≠ 0)] at this
      linarith
    have hcl : ((⌈a / 360⌉ : ℚ)) < a / 360 + 1 := Int.ceil_lt_add_one _
    have hmlo : -360 < a - 360 * ⌈a / 360⌉ := by
      have := mul_lt_mul_of_pos_left hcl (by norm_num : (0:ℚ) < 360)
      rw [mul_add, mul_div_cancel₀ a (by norm_num : (360:ℚ) ≠ 0)] at this
      linarith
    by_cases hz : a - 360 * ⌈a / 360⌉ = 0
    · have hdiv : a / 360 = ((⌈a / 360⌉ : ℚ)) := by
        field_simp at hz ⊢
        linarith
      have hfc : ⌊a / 360⌋ = ⌈a / 360⌉ := by
        conv_lhs => rw [hdiv]
        exact Int.floor_intCast _
      have h2 : (0 : ℚ) ≤ (a - 360 * ⌈a / 360⌉ + 360) / 360 := by
        rw [hz]
        norm_num
      have hq : ⌊(a - 360 * ⌈a / 360⌉ + 360) / 360⌋ = 1 := by
        rw [hz]
        norm_num
      rw [norm360, e1, jsMod, ratTrunc, if_pos h2, hq, hfc]
      push_cast
      linarith [hz]
    · have hmneg : a - 360 * ⌈a / 360⌉ < 0 := lt_of_le_of_ne hm0 hz
      have hflt : ⌊a / 360⌋ < ⌈a / 360⌉ := by
        by_contra hcon
        push_neg at hcon
        have : ((⌈a / 360⌉ : ℚ)) ≤ ((⌊a / 360⌋ : ℚ)) := by exact_mod_cast hcon
        have hfl2 : ((⌊a / 360⌋ : ℚ)) ≤ a / 360 := Int.floor_le _
        have : ((⌈a / 360⌉ : ℚ)) ≤ a / 360 := le_trans this hfl2
        have := mul_le_mul_of_nonneg_left this (by norm_num : (0:ℚ) ≤ 360)
        rw [mul_div_cancel₀ a (by norm_num : (360:ℚ) ≠ 0)] at this
        linarith
      have hceq : ⌈a / 360⌉ = ⌊a / 360⌋ + 1 :=
        le_antisymm (Int.ceil_le_floor_add_one _) (by omega)
      have h2 : (0 : ℚ) ≤ (a - 360 * ⌈a / 360⌉ + 360) / 360 := by
        rw [le_div_iff₀ (by norm_num : (0:ℚ) < 360)]
        linarith
      have hq : ⌊(a - 360 * ⌈a / 360⌉ + 360) / 360⌋ = 0 := by
        rw [Int.floor_eq_iff]
        constructor
        · rw [le_div_iff₀ (by norm_num : (0:ℚ) < 360)]
          push_cast
          linarith
        · rw [div_lt_iff₀ (by norm_num : (0:ℚ) < 360)]
          push_cast
          linarith
      rw [norm360, e1, jsMod, ratTrunc, if_pos h2, hq, hceq]
      push_cast
      ring

/-- Adding an integer multiple of 360 does not change the normalised angle. -/
theorem norm360_add_int_mul (a : ℚ) (k : ℤ) :
    norm360 (a + 360 * k) = norm360 a := by
  rw [norm360_eq, norm360_eq]
  have hdiv : (a + 360 * (k : ℚ)) / 360 = a / 360 + (k : ℚ) := by
    field_simp
    ring
  rw [hdiv, Int.floor_add_int]
  push_cast
  ring

/-- Lemma: `angDiff` is invariant under adding a multiple of 360 to its first angle. -/
theorem angDiff_add_int_mul (a b : ℚ) (k : ℤ) :
    angDiff (a + 360 * k) b = angDiff a b := by
  unfold angDiff
  rw [norm360_add_int_mul]

/-! ## Claims -/

/-- Claim C1.  The claim says `windQuality` with speed 0 and wind direction
equal to the offshore bearing `(coastBearing + 180) mod 360` returns 1.  The
code returns 0 there: with `coastBearing = 270` the offshore bearing is 90,
yet `windQuality 0 90 270 = 0`, because `angDiff windDir offshoreDir` is 0
(not 180) when the wind blows from dead offshore, so the angle score
vanishes; dead-onshore wind (`windDir = coastBearing = 270`) is what scores
1.  This theorem records both evaluations, contradicting the claim and the
function's own documentation. -/
theorem windQuality_offshore_scores_zero :
    windQuality 0 90 270 = 0 ∧ windQuality 0 270 270 = 1 := by
  constructor <;>
    norm_num [windQuality, angDiff, norm360, jsMod, ratTrunc, clamp01]

/-- Claim C2, counterexample.  The claim states that `min = max` denotes a
full-circle window (every direction inside), but the code takes the
`min ≤ max` branch and tests `x ≥ min ∧ x ≤ max`, so only `x = min` is
inside: `inDirWindow 0 10 10` is `false`. -/
theorem inDirWindow_eq_min_max_not_full :
    inDirWindow 0 10 10 = false := by decide

/-- Claim C2, amended.  The circular-window membership test returns
`x ≥ min ∧ x ≤ max` when `min ≤ max` and `x ≥ min ∨ x ≤ max` when
`min > max`; consequently `min = max` is the degenerate one-point window
`{min}`, not a full circle. -/
theorem inDirWindow_branch_characterisation (x mn mx : ℚ) :
    inDirWindow x mn mx = true ↔
      (if mn ≤ mx then mn ≤ x ∧ x ≤ mx else mn ≤ x ∨ x ≤ mx) := by
  unfold inDirWindow
  split_ifs with h <;> simp

/-- Claim C4, counterexample.  The claim asserts
`directionQuality (dp + 360·k) min max = directionQuality dp min max` for
every integer `k`.  It fails at `dp = 200`, `k = 1`, window `[190, 240]`:
the raw (un-normalised) `dp` is what `inDirWindow` tests, so 560 falls
outside the window and gets the soft 120° denominator (score 7/8) while 200
is inside and gets the steep 60° denominator (score 3/4). -/
theorem directionQuality_not_shift_invariant :
    directionQuality (200 + 360 * 1) 190 240 ≠ directionQuality 200 190 240 := by
  norm_num [directionQuality, inDirWindow, angDiff, norm360, jsMod, ratTrunc,
    clamp01]

/-- Claim C4, amended.  `windQuality` is invariant under adding any integer
multiple of 360 to the wind direction, because `angDiff` normalises both of
its arguments modulo 360; `directionQuality`, by contrast, feeds the raw
swell direction to `inDirWindow` and is not shift-invariant. -/
theorem windQuality_shift_invariant (s d cb : ℚ) (k : ℤ) :
    windQuality s (d + 360 * k) cb = windQuality s d cb := by
  simp only [windQuality, angDiff_add_int_mul]

/-- Claim C7.  Every component score returned by `componentScores` lies in
`[0, 1]`, for arbitrary (finite) rational inputs, negative or out-of-range
included: every score is wrapped in `clamp01`.  (All scorers are total
functions of their inputs, so no exception can arise.) -/
theorem componentScores_bounded (x : RatingInputs) :
    (componentScores x).Forall (fun c => 0 ≤ c.score ∧ c.score ≤ 1) := by
  have h : ∀ q : ℚ, 0 ≤ clamp01 q ∧ clamp01 q ≤ 1 :=
    fun q => ⟨clamp01_nonneg q, clamp01_le_one q⟩
  simp only [componentScores]
  exact ⟨h _, h _, h _, h _, h _⟩

set_option maxHeartbeats 1600000 in
/-- Claim C8.  The reason list produced by the code coincides, for every
assignment of the five axis scores, with the spec's per-axis inclusive
threshold rules in the fixed order wind, dir, period, size, tide (the
direction axis always emitting exactly one of its two strings, the others
emitting nothing strictly between their thresholds). -/
theorem reasonsFromComponents_eq_spec (cs : ComponentId → ℚ) :
    reasonsFromComponents cs = reasonsSpec cs := by
  unfold reasonsFromComponents reasonsSpec
  split_ifs <;> first
    | rfl
    | (exfalso; linarith)

/-- Claim C3.  On the five fixed components, `aggregateScore` with a
supplied profile computes exactly the spec's recipe `aggregateSpec`. -/
theorem aggregateScore_eq_spec (sW sD sP sS sT : ℚ) (lW lD lP lS lT : String)
    (wts : Weights) :
    aggregateScore
      [⟨ComponentId.wind, lW, sW⟩, ⟨ComponentId.dir, lD, sD⟩,
       ⟨ComponentId.period, lP, sP⟩, ⟨ComponentId.size, lS, sS⟩,
       ⟨ComponentId.tide, lT, sT⟩] (some wts)
    = some (aggregateSpec sW sD sP sS sT wts) := by
  simp only [aggregateScore, aggregateSpec, List.map_cons, List.map_nil,
    List.zip_cons_cons, List.zip_nil_right, List.foldl_cons, List.foldl_nil]
  norm_num
  have h100 : ∀ g : ℝ, g * 10 * 10 = g * 100 := fun g => by ring
  rw [h100]

/-- Claim C5.  With weights `{wind: 1}`, a wind score of exactly 0 and all
other axis scores 1, the aggregate `score_0_10` is exactly 0: the geometric
mean collapses to the epsilon floor `1e-6`, and `round (1e-4) / 10 = 0`. -/
theorem aggregateScore_zero_axis_floor :
    Option.map AggregateData.score_0_10
      (aggregateScore
        [⟨ComponentId.wind, "Wind", 0⟩, ⟨ComponentId.dir, "Direction", 1⟩,
         ⟨ComponentId.period, "Period", 1⟩, ⟨ComponentId.size, "Size", 1⟩,
         ⟨ComponentId.tide, "Tide", 1⟩]
        (some (fun id => if id = ComponentId.wind then some 1 else none)))
    = some 0 := by
  simp only [aggregateScore, List.map_cons, List.map_nil, List.zip_cons_cons,
    List.zip_nil_right, List.foldl_cons, List.foldl_nil, Option.map_some]
  norm_num +decide [max_def]
  rw [Real.exp_log (by norm_num)]
  norm_num [jsRound]

/-- Claim C6.  With no weight profile the facade produces no aggregate at
all, for any inputs; with a supplied profile whose entries are all missing
or zero it still produces one, whose geometric mean is trivially 1, i.e.
`score_0_10 = 10`. -/
theorem evaluateRating_aggregate_absence (x : RatingInputs) (wts : Weights)
    (h : ∀ id, wts id = none ∨ wts id = some 0) :
    (evaluateRating x none).aggregate = none ∧
      ∃ agg, (evaluateRating x (some wts)).aggregate = some agg ∧
        agg.score_0_10 = 10 := by
  have hw : ∀ id, ((wts id).getD 0 : ℚ) = 0 := by
    intro id
    rcases h id with h1 | h1 <;> simp [h1]
  refine ⟨rfl, ?_⟩
  refine ⟨_, rfl, ?_⟩
  simp only [evaluateRating, aggregateScore, componentScores, List.map_cons,
    List.map_nil, List.zip_cons_cons, List.zip_nil_right, List.foldl_cons,
    List.foldl_nil, hw]
  norm_num [jsRound, Real.exp_zero]

/-- Claim C6 witness at a concrete input and the all-missing profile. -/
theorem evaluateRating_aggregate_absence_witness :
    (evaluateRating sampleInputs none).aggregate = none ∧
      ∃ agg,
        (evaluateRating sampleInputs (some (fun _ => none))).aggregate = some agg ∧
          agg.score_0_10 = 10 :=
  evaluateRating_aggregate_absence sampleInputs (fun _ => none)
    (fun _ => Or.inl rfl)

/-- Claim C9.  `scoreForecast` calls the evaluation facade with exactly the
fixed profile wind 0.35, dir 0.35, period 0.2, size 0.1, tide 0.6, and
reshapes its result: the flat score is the aggregate `score_0_10`, the flat
component object carries each axis score under its `<axis>Score` key, and
the reasons list is the same. -/
theorem scoreForecast_is_reshaped_evaluateRating (x : RatingInputs) :
    legacyWeights ComponentId.wind = some 0.35 ∧
    legacyWeights ComponentId.dir = some 0.35 ∧
    legacyWeights ComponentId.period = some 0.2 ∧
    legacyWeights ComponentId.size = some 0.1 ∧
    legacyWeights ComponentId.tide = some 0.6 ∧
    ∃ agg, (evaluateRating x (some legacyWeights)).aggregate = some agg ∧
      (scoreForecast x).score = agg.score_0_10 ∧
      (scoreForecast x).reasons = (evaluateRating x (some legacyWeights)).reasons ∧
      (scoreForecast x).components =
        ⟨componentScoreOf x ComponentId.wind, componentScoreOf x ComponentId.dir,
         componentScoreOf x ComponentId.period, componentScoreOf x ComponentId.size,
         componentScoreOf x ComponentId.tide⟩ :=
  ⟨rfl, rfl, rfl, rfl, rfl, _, rfl, rfl, rfl, rfl⟩

/-- Claim C10.  `scoreForecast` always hands `aggregateScore` a non-null
profile, so the aggregate is never null and the `?? 0` fallback never fires:
the returned flat score is always the computed aggregate `score_0_10`. -/
theorem scoreForecast_aggregate_never_null (x : RatingInputs) :
    ∃ agg, (evaluateRating x (some legacyWeights)).aggregate = some agg ∧
      (scoreForecast x).score = agg.score_0_10 :=
  ⟨_, rfl, rfl⟩
